import Mathlib

/-!
Verification of the asynchronous job-submission and polling core of the
tattoo-ideas front end (`src/app/page.tsx`, function `handleButtonClick`,
together with the progress interval callback and the gallery rendering
expressions).

The embedding is a shallow one: the React state setters (`setError`,
`setPrediction`, `setPredictionOn`, `setProgress`) become fields of an
explicit `ClientState`; the HTTP environment (one creation response and a
stream of poll responses) is passed in as data; `fetch` rejections,
`response.json()` rejections, the explicit `throw new Error(...)` and the
TypeError raised by a property access on a JSON `null` body are modelled
with `Except`, caught at the same boundary as the source `try/catch`.
Observable effects (network requests, store publications, interval
start/clear, the fixed delays) are recorded in an event trace.  The
`setInterval` callback that synthesizes the cosmetic progress value is a
separate pure step function, iterated once per 750 ms tick.
-/

/-- Shape of the service body, `interface Prediction` in the source. -/
structure Prediction where
  output : List String
  status : String
  id : String
  detail : Option String
deriving Repr, DecidableEq

/-- Result of `await response.json()`: the parse can reject (`throws`),
produce the JSON literal `null` (`nullBody`, falsy in the `!!prediction` test of the source and a TypeError on any property access), or produce a
record of the expected shape. -/
inductive Body where
  | throws
  | nullBody
  | value (p : Prediction)
deriving Repr, DecidableEq

/-- An HTTP response: numeric status plus body parse outcome. -/
structure HttpResponse where
  status : Nat
  body : Body
deriving Repr, DecidableEq

/-- One `fetch`: either a response arrives or the promise rejects. -/
inductive FetchResult where
  | success (r : HttpResponse)
  | failure
deriving Repr, DecidableEq

/-- `Response.ok`: status in the inclusive range 200-299. -/
def respOk (status : Nat) : Bool :=
  200 ≤ status && status ≤ 299

/-- The React state of the component: `progress`, `predictionOn`,
`prediction` and `error` (the `message` input field is an argument of the
handler instead).  `none` stands for the JS `null`/`undefined`. -/
structure ClientState where
  progress : Nat
  predictionOn : Bool
  prediction : Option Prediction
  error : Option String
deriving Repr, DecidableEq

/-- Initial `useState` values: 0, false, null, null. -/
def initialState : ClientState := ⟨0, false, none, none⟩

/-- Observable effects of one handler run, in program order. -/
inductive Event where
  | fetchCreate (body : String)
  | sleep (ms : Nat)
  | fetchPoll
  | publish (p : Option Prediction)
  | intervalStart (periodMs : Nat)
  | intervalClear
deriving Repr, DecidableEq

/-- Kind of exception reaching the `catch` block.  All four are `Error`
instances in the source, so the catch logs
`"There was a problem with the fetch operation: " ++ message` for each. -/
inductive ExnKind where
  | transport
  | parse
  | httpError (status : Nat)
  | typeError
deriving Repr, DecidableEq

/-- State, trace and kind carried by a thrown exception. -/
structure Thrown where
  state : ClientState
  trace : List Event
  kind : ExnKind
deriving Repr, DecidableEq

/-- Normal completion of the `try` body.  `exhausted` is true when the
poll loop was still running but the supplied environment had no further
responses (the source loop would simply keep polling). -/
structure TryDone where
  state : ClientState
  trace : List Event
  exhausted : Bool
deriving Repr, DecidableEq

/-- How the handler run ended. -/
inductive Outcome where
  | returned
  | caught (k : ExnKind)
  | outOfResponses
deriving Repr, DecidableEq

/-- Final state, trace and outcome of one handler invocation. -/
structure RunResult where
  state : ClientState
  trace : List Event
  outcome : Outcome
deriving Repr, DecidableEq

/-- Source line 82: the over-length validation message. -/
def tooLongMsg : String :=
  "Your message exceeds the 2000 characters limit. Please shorten your message and try again."

/-- Source line 108: the HTTP 429 rate-limit message. -/
def rateLimitMsg : String :=
  "You have reached your request limit of 5 for the hour. Try again after sometime."

/-- Source line 176: the empty-input message. -/
def noTextMsg : String :=
  "No text entered. Please enter a prompt and try again."

/-- Source line 88: the fixed style template wrapped around the input. -/
def promptFor (message : String) : String :=
  "in the style of TOK," ++ message ++ " as a tattoo"

/-- Source line 141: period of the synthesized-progress interval. -/
def progressIntervalMs : Nat := 750

/-- Source line 147: fixed delay before each poll fetch. -/
def pollDelayMs : Nat := 2000

/-- Source loop condition, line 143-146:
`prediction.status !== "succeeded" && prediction.status !== "failed"`. -/
def loopContinues (st : String) : Bool :=
  st != "succeeded" && st != "failed"

/-- The `while` loop of `handleButtonClick` (source lines 143-161), one
recursive step per supplied poll response.  Each iteration sleeps 2000 ms,
fetches, parses, aborts on a non-200 status after surfacing `detail`,
publishes the fresh prediction, and on `succeeded` clears the interval,
forces progress to 100 and clears the in-flight flag.  Exceptions travel
to the caller as `Except.error`. -/
def pollLoop : List FetchResult → Prediction → ClientState → List Event →
    Except Thrown TryDone
  | [], p, s, tr =>
    if loopContinues p.status then
      .ok ⟨s, tr ++ [.sleep 2000], true⟩
    else
      .ok ⟨s, tr, false⟩
  | fr :: rest, p, s, tr =>
    if loopContinues p.status then
      let tr2 := tr ++ [.sleep 2000, .fetchPoll]
      match fr with
      | .failure => .error ⟨s, tr2, .transport⟩
      | .success response =>
        match response.body with
        | .throws => .error ⟨s, tr2, .parse⟩
        | .nullBody =>
          if response.status != 200 then
            .error ⟨s, tr2, .typeError⟩
          else
            .error ⟨{ s with prediction := none }, tr2 ++ [.publish none], .typeError⟩
        | .value q =>
          if response.status != 200 then
            .ok ⟨{ s with error := q.detail }, tr2, false⟩
          else
            let s2 := { s with prediction := some q }
            let tr3 := tr2 ++ [.publish (some q)]
            if q.status == "succeeded" then
              pollLoop rest q { s2 with progress := 100, predictionOn := false }
                (tr3 ++ [.intervalClear])
            else
              pollLoop rest q s2 tr3
    else
      .ok ⟨s, tr, false⟩

/-- The `try` body of `handleButtonClick` (source lines 103-167): the
creation fetch, the `!response.ok` branch (429 sets the rate-limit
message and clears the flag but falls through; other non-ok statuses
throw), `response.json()`, the non-201 abort surfacing `detail`, the
store publication, the interval start with progress reset, and the poll
loop. -/
def tryBody (message : String) (createFr : FetchResult) (polls : List FetchResult)
    (s : ClientState) : Except Thrown TryDone :=
  let tr : List Event := [.fetchCreate (promptFor message)]
  match createFr with
  | .failure => .error ⟨s, tr, .transport⟩
  | .success response =>
    let after429 : Except Thrown ClientState :=
      if !(respOk response.status) then
        if response.status == 429 then
          .ok { s with error := some rateLimitMsg, predictionOn := false }
        else
          .error ⟨s, tr, .httpError response.status⟩
      else
        .ok s
    match after429 with
    | .error t => .error t
    | .ok s1 =>
      match response.body with
      | .throws => .error ⟨s1, tr, .parse⟩
      | .nullBody =>
        if response.status != 201 then
          .error ⟨s1, tr, .typeError⟩
        else
          .ok ⟨{ s1 with prediction := none, predictionOn := false },
            tr ++ [.publish none], false⟩
      | .value p =>
        if response.status != 201 then
          .ok ⟨{ s1 with error := p.detail, predictionOn := false }, tr, false⟩
        else
          let s2 := { s1 with prediction := some p }
          let tr2 := tr ++ [.publish (some p)]
          let s3 := { s2 with progress := 0 }
          let tr3 := tr2 ++ [.intervalStart 750]
          pollLoop polls p s3 tr3

/-- `handleButtonClick` (source lines 77-179).  The JS truthiness test
`if (message)` is the emptiness test on the string; the over-length check
returns before any network call; the `catch` clears the in-flight flag
and logs, leaving every other field of the at-throw state unchanged. -/
def handleButtonClick (message : String) (createFr : FetchResult)
    (polls : List FetchResult) (s : ClientState) : RunResult :=
  if message = "" then
    ⟨{ s with error := some noTextMsg }, [], .returned⟩
  else
    let s0 := { s with error := none }
    if message.length > 2000 then
      ⟨{ s0 with error := some tooLongMsg }, [], .returned⟩
    else
      let s1 := { s0 with predictionOn := true }
      match tryBody message createFr polls s1 with
      | .ok d => ⟨d.state, d.trace, if d.exhausted then .outOfResponses else .returned⟩
      | .error t => ⟨{ t.state with predictionOn := false }, t.trace, .caught t.kind⟩

/-- State of the `setInterval` callback (source lines 133-141):
`progressValue` is the captured local, `progress` the React state it
writes, `cleared` whether the callback has called `clearInterval` on
itself. -/
structure IntervalState where
  progressValue : Nat
  progress : Nat
  cleared : Bool
deriving Repr, DecidableEq

/-- One tick of the interval callback: below the cap it publishes
`progressValue` and post-increments it; above the cap it clears itself. -/
def intervalTick (st : IntervalState) : IntervalState :=
  if st.cleared then st
  else if st.progressValue ≤ 100 then
    { st with progress := st.progressValue, progressValue := st.progressValue + 1 }
  else
    { st with cleared := true }

/-- Interval state right after `setProgress(0)` and `setInterval`:
`progressValue = 1`, published progress 0, not cleared. -/
def intervalInit : IntervalState := ⟨1, 0, false⟩

/-- Interval state after `n` ticks of 750 ms each. -/
def intervalAfter : Nat → IntervalState
  | 0 => intervalInit
  | n + 1 => intervalTick (intervalAfter n)

/-- JS array indexing with a possibly negative index: out-of-range reads
yield `undefined`, modelled as `none`. -/
def jsIndex (l : List String) (i : Int) : Option String :=
  if 0 ≤ i then l[i.toNat]? else none

/-- The four gallery `src` expressions of the rendering boundary (source
lines 328-331): `output[output.length - 1]` down to
`output[output.length - 4]`, unguarded. -/
def displayedSrcs (output : List String) : List (Option String) :=
  [jsIndex output ((output.length : Int) - 1),
   jsIndex output ((output.length : Int) - 2),
   jsIndex output ((output.length : Int) - 3),
   jsIndex output ((output.length : Int) - 4)]

/-- Modelled from the spec, section 4.2: the per-iteration contract of the
Status Poller in the own words of the spec — wait the fixed 2000 ms delay, fetch,
publish the freshly fetched Job to the store, then re-evaluate; on
`succeeded` stop the synthesizer, force progress to 100 and clear the
in-flight flag; on `failed` stop the loop; consume no response after a
terminal one.  Compared against `pollLoop` in the refinement theorem for
C5. -/
def specPollStep : List Prediction → ClientState → TryDone
  | [], s => ⟨s, [.sleep 2000], true⟩
  | q :: rest, s =>
    let evs : List Event := [.sleep 2000, .fetchPoll, .publish (some q)]
    let s1 := { s with prediction := some q }
    if q.status == "succeeded" then
      ⟨{ s1 with progress := 100, predictionOn := false }, evs ++ [.intervalClear], false⟩
    else if q.status == "failed" then
      ⟨s1, evs, false⟩
    else
      let r := specPollStep rest s1
      ⟨r.state, evs ++ r.trace, r.exhausted⟩

/-- A poll response that arrives with HTTP 200 and parses to `q`. -/
def ok200 (q : Prediction) : FetchResult :=
  .success ⟨200, .value q⟩

/-- Concrete run: valid prompt, 201 creation with status `starting`, then a
single HTTP-200 poll reporting the terminal status `failed`; one further
response is queued to witness that the loop stops fetching. -/
def failedStatusRun : RunResult :=
  handleButtonClick "cat" (.success ⟨201, .value ⟨[], "starting", "j1", none⟩⟩)
    [.success ⟨200, .value ⟨["i1"], "failed", "j1", some "NSFW"⟩⟩,
     .success ⟨200, .value ⟨["i2"], "processing", "j1", none⟩⟩]
    initialState

/-- Concrete run: valid prompt, 201 creation with status `starting`, then a
poll answered with HTTP 500 carrying a `detail`; one further response is
queued to witness that the loop stops fetching. -/
def non200PollRun : RunResult :=
  handleButtonClick "cat" (.success ⟨201, .value ⟨[], "starting", "j1", none⟩⟩)
    [.success ⟨500, .value ⟨[], "processing", "j1", some "oops"⟩⟩,
     .success ⟨200, .value ⟨["i2"], "processing", "j1", none⟩⟩]
    initialState

/-- Concrete run: valid prompt, creation answered 429 with a parseable body
whose `detail` is a server-side message. -/
def rateLimit429Run : RunResult :=
  handleButtonClick "cat"
    (.success ⟨429, .value ⟨[], "", "", some "Too many requests"⟩⟩)
    [] initialState

/-- Concrete run: valid prompt, the creation fetch itself rejects. -/
def transportFailRun : RunResult :=
  handleButtonClick "cat" .failure [] initialState

/-- Concrete run: valid prompt, creation answered 500 with a parseable body
whose `detail` is "boom". -/
def create500Run : RunResult :=
  handleButtonClick "cat"
    (.success ⟨500, .value ⟨[], "starting", "j", some "boom"⟩⟩)
    [] initialState

theorem pollLoop_terminal (polls : List FetchResult) (p : Prediction)
    (s : ClientState) (tr : List Event) (h : loopContinues p.status = false) :
    pollLoop polls p s tr = .ok ⟨s, tr, false⟩ := by
  cases polls <;> simp [pollLoop, h]

theorem pollLoop_error_error_eq : ∀ (polls : List FetchResult) (p : Prediction)
    (s : ClientState) (tr : List Event) (t : Thrown),
    pollLoop polls p s tr = .error t → t.state.error = s.error
  | [], p, s, tr, t => by
    intro h
    simp only [pollLoop] at h
    split at h <;> simp at h
  | fr :: rest, p, s, tr, t => by
    intro h
    simp only [pollLoop] at h
    split at h
    · match fr with
      | .failure =>
        simp only at h
        cases h
        rfl
      | .success response =>
        match hb : response.body with
        | .throws =>
          simp only [hb] at h
          cases h
          rfl
        | .nullBody =>
          simp only [hb] at h
          split at h <;> (cases h; rfl)
        | .value q =>
          simp only [hb] at h
          split at h
          · simp at h
          · split at h
            · have h2 := pollLoop_error_error_eq rest q _ _ t h
              simpa using h2
            · have h2 := pollLoop_error_error_eq rest q _ _ t h
              simpa using h2
    · simp at h

theorem tryBody_error_error_eq (msg : String) (createFr : FetchResult)
    (polls : List FetchResult) (s : ClientState) (t : Thrown)
    (h : tryBody msg createFr polls s = .error t) :
    t.state.error = s.error ∨ t.state.error = some rateLimitMsg := by
  match createFr with
  | .failure =>
    simp only [tryBody] at h
    cases h
    exact Or.inl rfl
  | .success response =>
    by_cases hok : respOk response.status = true
    · simp only [tryBody, hok, Bool.not_true, Bool.false_eq_true, if_false] at h
      match hb : response.body with
      | .throws =>
        simp only [hb] at h
        cases h
        exact Or.inl rfl
      | .nullBody =>
        simp only [hb] at h
        split at h
        · cases h
          exact Or.inl rfl
        · simp at h
      | .value p =>
        simp only [hb] at h
        split at h
        · simp at h
        · have h2 := pollLoop_error_error_eq _ _ _ _ t h
          exact Or.inl (by simpa using h2)
    · rw [Bool.not_eq_true] at hok
      by_cases h429 : (response.status == 429) = true
      · simp only [tryBody, hok, h429, Bool.not_false, if_true] at h
        match hb : response.body with
        | .throws =>
          simp only [hb] at h
          cases h
          exact Or.inr rfl
        | .nullBody =>
          simp only [hb] at h
          split at h
          · cases h
            exact Or.inr rfl
          · simp at h
        | .value p =>
          simp only [hb] at h
          split at h
          · simp at h
          · have h2 := pollLoop_error_error_eq _ _ _ _ t h
            exact Or.inr (by simpa using h2)
      · rw [Bool.not_eq_true] at h429
        simp only [tryBody, hok, h429, Bool.not_false, if_true, if_false,
          Bool.false_eq_true] at h
        cases h
        exact Or.inl rfl

theorem intervalAfter_eq (n : Nat) :
    intervalAfter n =
      if n ≤ 100 then ⟨n + 1, n, false⟩ else ⟨101, 100, true⟩ := by
  induction n with
  | zero => rfl
  | succ n ih =>
    rw [intervalAfter, ih]
    by_cases h : n ≤ 100
    · by_cases h2 : n + 1 ≤ 100
      · simp [h, h2, intervalTick]
      · have hn : n = 100 := by omega
        simp [h, h2, intervalTick, hn]
    · have h2 : ¬ (n + 1 ≤ 100) := by omega
      simp [h, h2, intervalTick]

theorem intervalAfter_progress (n : Nat) :
    (intervalAfter n).progress = min n 100 := by
  rw [intervalAfter_eq]
  split <;> simp <;> omega

/-- C5: while the stored Job status is neither `succeeded` nor `failed`,
each poller iteration waits the fixed 2000 ms delay, then fetches, then
(on a 200 response) publishes the freshly fetched Job to the store before
the loop condition is re-evaluated, and once a terminal status has been
observed no further poll is issued: over any stream of HTTP-200 poll
responses, the source loop `pollLoop` produces exactly the state, the
event order and the termination behaviour of the spec-side per-iteration
description `specPollStep` (the trace is the complete record of issued
fetches, so the equality also rules out any fetch after the terminal
response). -/
theorem poller_iteration_order (qs : List Prediction) (p : Prediction)
    (s : ClientState) (tr : List Event) (hp : loopContinues p.status = true) :
    pollLoop (qs.map ok200) p s tr =
      .ok ⟨(specPollStep qs s).state, tr ++ (specPollStep qs s).trace,
           (specPollStep qs s).exhausted⟩ := by
  induction qs generalizing p s tr with
  | nil => simp [pollLoop, specPollStep, hp]
  | cons q rest ih =>
    simp only [List.map_cons]
    by_cases hs : q.status = "succeeded"
    · have hq : loopContinues q.status = false := by simp [loopContinues, hs]
      simp [pollLoop, specPollStep, ok200, hp, hs,
        pollLoop_terminal _ _ _ _ hq, List.append_assoc]
    · by_cases hf : q.status = "failed"
      · have hq : loopContinues q.status = false := by simp [loopContinues, hf]
        simp [pollLoop, specPollStep, ok200, hp, hs, hf,
          pollLoop_terminal _ _ _ _ hq, List.append_assoc]
      · have hq : loopContinues q.status = true := by simp [loopContinues, hs, hf]
        simp [pollLoop, specPollStep, ok200, hp, hs, hf, List.append_assoc]
        rw [ih q _ _ hq]
        simp [List.append_assoc]

/-- C6: when a poll response arrives with HTTP 200 and reports status
`succeeded`, the poller clears the synthesized-progress interval, forces
the progress value to exactly 100 and sets the submission-in-flight flag
to false (and publishes the terminal Job), regardless of the current
state, the trace so far or any further queued responses. -/
theorem poll_succeeded_terminal_cleanup (p q : Prediction)
    (rest : List FetchResult) (s : ClientState) (tr : List Event)
    (hp : loopContinues p.status = true) (hq : q.status = "succeeded") :
    pollLoop (.success ⟨200, .value q⟩ :: rest) p s tr =
      .ok ⟨{ s with prediction := some q, progress := 100, predictionOn := false },
           tr ++ [.sleep 2000, .fetchPoll, .publish (some q), .intervalClear],
           false⟩ := by
  have hqc : loopContinues q.status = false := by simp [loopContinues, hq]
  simp [pollLoop, hp, hq, pollLoop_terminal _ _ _ _ hqc, List.append_assoc]

/-- C1: the claim requires that a poll sequence ending in service status
`failed` (all polls HTTP 200) stops the loop, ends with the in-flight
flag false and releases the synthesized-progress timer.  Evaluating the
code at such a sequence: the loop does stop (exactly one poll fetch is
issued although a second response is available), but `predictionOn`
remains true and no `clearInterval` is ever executed, so the timer keeps
running — the latent gap on the `failed` branch that the spec acknowledges. -/
theorem failed_status_leaves_flag_and_timer :
    failedStatusRun.trace.count Event.fetchPoll = 1 ∧
    failedStatusRun.outcome = Outcome.returned ∧
    failedStatusRun.state.predictionOn = true ∧
    Event.intervalClear ∉ failedStatusRun.trace := by
  decide

/-- C4: the claim requires that a non-200 poll response surfaces its
`detail`, stops the loop, clears the in-flight flag and stops the
synthesized-progress timer.  Evaluating the code at a 500 poll: `detail`
is surfaced and the loop stops (one fetch despite a queued second
response), but the early `return` leaves `predictionOn` true and never
clears the interval. -/
theorem non_200_poll_leaves_flag_and_timer :
    non200PollRun.state.error = some "oops" ∧
    non200PollRun.trace.count Event.fetchPoll = 1 ∧
    non200PollRun.outcome = Outcome.returned ∧
    non200PollRun.state.predictionOn = true ∧
    Event.intervalClear ∉ non200PollRun.trace := by
  decide

/-- C2 counterexample: on a 429 creation response whose body parses, the
final user-visible error is the `detail` of the body, not the fixed rate-limit
message — the missing `return` lets the later `setError(prediction.detail)`
overwrite it. -/
theorem rate_limit_message_overwritten :
    rateLimit429Run.state.error = some "Too many requests" ∧
    rateLimit429Run.state.error ≠ some rateLimitMsg := by
  decide

/-- C2 amended: on every 429 creation response (valid input), the
in-flight flag ends false and no poll fetch is ever issued; the rate-limit
message is set but survives only when body parsing throws — when the body
parses, the surfaced error is the `detail` of the body instead. -/
theorem create_429_aborts_without_polling (msg : String) (body : Body)
    (polls : List FetchResult) (s : ClientState)
    (hne : msg ≠ "") (hlen : msg.length ≤ 2000) :
    (handleButtonClick msg (.success ⟨429, body⟩) polls s).state.predictionOn = false ∧
    Event.fetchPoll ∉ (handleButtonClick msg (.success ⟨429, body⟩) polls s).trace ∧
    (handleButtonClick msg (.success ⟨429, body⟩) polls s).state.error =
      (match body with
       | .value p => p.detail
       | _ => some rateLimitMsg) := by
  have hlen2 : ¬ (msg.length > 2000) := by omega
  cases body <;> simp [handleButtonClick, tryBody, respOk, hne, hlen2]

theorem create_429_aborts_without_polling_witness :
    (handleButtonClick "cat" (.success ⟨429, Body.throws⟩) [] initialState).state.predictionOn = false ∧
    Event.fetchPoll ∉ (handleButtonClick "cat" (.success ⟨429, Body.throws⟩) [] initialState).trace ∧
    (handleButtonClick "cat" (.success ⟨429, Body.throws⟩) [] initialState).state.error =
      (match Body.throws with
       | .value p => p.detail
       | _ => some rateLimitMsg) :=
  create_429_aborts_without_polling "cat" Body.throws [] initialState
    (by decide) (by decide)

/-- C3 counterexample: a transport failure on the creation fetch resolves
into a caught exception with the in-flight flag cleared, but the
user-visible error state stays `none` — no generic failure message is
surfaced as an observable error state (the message goes to the console
log only). -/
theorem transport_failure_surfaces_no_error :
    transportFailRun.state.error = none ∧
    transportFailRun.state.predictionOn = false ∧
    transportFailRun.outcome = Outcome.caught ExnKind.transport := by
  decide

/-- C3 amended: for every environment in which the submission/poll
operation ends in a caught exception (transport failure, body-parse
failure, or an internally thrown error), the operation resolves with the
in-flight flag false, and the catch block writes nothing to the
user-visible error state: the error is still `none` (cleared at entry) or
the rate-limit message set before a 429 body failed to parse — never a
generic transport-failure message. -/
theorem caught_failure_clears_flag_keeps_error (msg : String)
    (createFr : FetchResult) (polls : List FetchResult) (s : ClientState)
    (k : ExnKind) (hne : msg ≠ "") (hlen : msg.length ≤ 2000)
    (hc : (handleButtonClick msg createFr polls s).outcome = .caught k) :
    (handleButtonClick msg createFr polls s).state.predictionOn = false ∧
    ((handleButtonClick msg createFr polls s).state.error = none ∨
      (handleButtonClick msg createFr polls s).state.error = some rateLimitMsg) := by
  have hlen2 : ¬ (msg.length > 2000) := by omega
  cases htb : tryBody msg createFr polls { s with error := none, predictionOn := true } with
  | ok d =>
    exfalso
    cases hex : d.exhausted <;>
      simp [handleButtonClick, hne, hlen2, htb, hex] at hc
  | error t =>
    have herr := tryBody_error_error_eq _ _ _ _ _ htb
    simp only [] at herr
    simp [handleButtonClick, hne, hlen2, htb]
    simpa using herr

theorem caught_failure_clears_flag_keeps_error_witness :
    (handleButtonClick "cat" FetchResult.failure [] initialState).state.predictionOn = false ∧
    ((handleButtonClick "cat" FetchResult.failure [] initialState).state.error = none ∨
      (handleButtonClick "cat" FetchResult.failure [] initialState).state.error = some rateLimitMsg) :=
  caught_failure_clears_flag_keeps_error "cat" FetchResult.failure [] initialState
    ExnKind.transport (by decide) (by decide) (by decide)

theorem poller_iteration_order_witness :
    pollLoop ([⟨["a"], "processing", "j1", none⟩,
               ⟨["a", "b"], "succeeded", "j1", none⟩].map ok200)
        ⟨[], "starting", "j1", none⟩ initialState [] =
      .ok ⟨(specPollStep [⟨["a"], "processing", "j1", none⟩,
                          ⟨["a", "b"], "succeeded", "j1", none⟩] initialState).state,
           [] ++ (specPollStep [⟨["a"], "processing", "j1", none⟩,
                                ⟨["a", "b"], "succeeded", "j1", none⟩] initialState).trace,
           (specPollStep [⟨["a"], "processing", "j1", none⟩,
                          ⟨["a", "b"], "succeeded", "j1", none⟩] initialState).exhausted⟩ :=
  poller_iteration_order
    [⟨["a"], "processing", "j1", none⟩, ⟨["a", "b"], "succeeded", "j1", none⟩]
    ⟨[], "starting", "j1", none⟩ initialState [] (by decide)

theorem poll_succeeded_terminal_cleanup_witness :
    pollLoop (.success ⟨200, .value ⟨["a"], "succeeded", "j1", none⟩⟩ :: [])
        ⟨[], "starting", "j1", none⟩ initialState [] =
      .ok ⟨{ initialState with
             prediction := some ⟨["a"], "succeeded", "j1", none⟩,
             progress := 100, predictionOn := false },
           [] ++ [.sleep 2000, .fetchPoll, .publish (some ⟨["a"], "succeeded", "j1", none⟩),
                  .intervalClear],
           false⟩ :=
  poll_succeeded_terminal_cleanup ⟨[], "starting", "j1", none⟩
    ⟨["a"], "succeeded", "j1", none⟩ [] initialState [] (by decide) rfl

/-- C7: the synthesized progress value starts at 0, its interval period is
750 ms, it increments by exactly 1 per tick while below 100, it never
decreases, it never exceeds 100, and once 100 ticks have elapsed it holds
at exactly 100 (the callback stops publishing increments instead of
wrapping or erroring). -/
theorem progress_synthesizer_contract :
    (intervalAfter 0).progress = 0 ∧
    progressIntervalMs = 750 ∧
    (∀ n, n < 100 → (intervalAfter (n + 1)).progress = (intervalAfter n).progress + 1) ∧
    (∀ m n, m ≤ n → (intervalAfter m).progress ≤ (intervalAfter n).progress) ∧
    (∀ n, (intervalAfter n).progress ≤ 100) ∧
    (∀ n, 100 ≤ n → (intervalAfter n).progress = 100) := by
  refine ⟨rfl, rfl, ?_, ?_, ?_, ?_⟩
  · intro n h
    rw [intervalAfter_progress, intervalAfter_progress]
    omega
  · intro m n h
    rw [intervalAfter_progress, intervalAfter_progress]
    omega
  · intro n
    rw [intervalAfter_progress]
    omega
  · intro n h
    rw [intervalAfter_progress]
    omega

theorem progress_synthesizer_contract_witness :
    (intervalAfter 3).progress = (intervalAfter 2).progress + 1 ∧
    (intervalAfter 40).progress ≤ (intervalAfter 90).progress ∧
    (intervalAfter 7).progress ≤ 100 ∧
    (intervalAfter 120).progress = 100 :=
  ⟨progress_synthesizer_contract.2.2.1 2 (by decide),
   progress_synthesizer_contract.2.2.2.1 40 90 (by decide),
   progress_synthesizer_contract.2.2.2.2.1 7,
   progress_synthesizer_contract.2.2.2.2.2 120 (by decide)⟩

/-- C8: empty input and over-2000-character input each fail fast — the
handler returns with an empty trace (no network request of any kind) and
a validation message — and the two messages are distinct. -/
theorem validation_fails_fast :
    (∀ createFr polls s, handleButtonClick "" createFr polls s =
        ⟨{ s with error := some noTextMsg }, [], .returned⟩) ∧
    (∀ msg createFr polls s, msg.length > 2000 →
        handleButtonClick msg createFr polls s =
          ⟨{ s with error := some tooLongMsg }, [], .returned⟩) ∧
    noTextMsg ≠ tooLongMsg := by
  refine ⟨?_, ?_, by decide⟩
  · intro createFr polls s
    simp [handleButtonClick]
  · intro msg createFr polls s h
    have hne : ¬ (msg = "") := by
      intro he
      rw [he] at h
      exact absurd h (by decide)
    simp [handleButtonClick, hne, h]

theorem validation_fails_fast_witness :
    handleButtonClick "" FetchResult.failure [] initialState =
      ⟨{ initialState with error := some noTextMsg }, [], .returned⟩ ∧
    handleButtonClick (String.mk (List.replicate 2001 'a')) FetchResult.failure [] initialState =
      ⟨{ initialState with error := some tooLongMsg }, [], .returned⟩ :=
  ⟨validation_fails_fast.1 FetchResult.failure [] initialState,
   validation_fails_fast.2.1 (String.mk (List.replicate 2001 'a'))
     FetchResult.failure [] initialState
     (by
       show 2000 < (List.replicate 2001 'a').length
       rw [List.length_replicate]
       omega)⟩

/-- C9 counterexample: a creation response with status 500 and body detail
"boom" does not surface that detail — the non-ok branch throws before the
body is read, the catch block sets no error, and the final error state is
`none`. -/
theorem create_error_status_detail_not_surfaced :
    create500Run.state.error = none ∧
    create500Run.state.predictionOn = false ∧
    create500Run.outcome = Outcome.caught (ExnKind.httpError 500) := by
  decide

/-- C9 amended: for a creation response whose status is neither 201 nor
429, polling never begins and the in-flight flag ends false; the
service-provided `detail` is surfaced verbatim only when the status is in
the ok range (2xx other than 201) — for statuses outside the ok range the
code throws internally and the catch surfaces nothing, leaving the error
state `none`. -/
theorem create_non201_non429_behaviour (msg : String) (status : Nat)
    (p : Prediction) (polls : List FetchResult) (s : ClientState)
    (hne : msg ≠ "") (hlen : msg.length ≤ 2000)
    (h201 : status ≠ 201) (h429 : status ≠ 429) :
    (respOk status = true →
      handleButtonClick msg (.success ⟨status, .value p⟩) polls s =
        ⟨{ s with error := p.detail, predictionOn := false },
         [.fetchCreate (promptFor msg)], .returned⟩) ∧
    (respOk status = false →
      handleButtonClick msg (.success ⟨status, .value p⟩) polls s =
        ⟨{ s with error := none, predictionOn := false },
         [.fetchCreate (promptFor msg)], .caught (.httpError status)⟩) := by
  have hlen2 : ¬ (msg.length > 2000) := by omega
  have hb201 : (status != 201) = true := by simp [h201]
  have hb429 : (status == 429) = false := by simp [h429]
  constructor
  · intro hok
    simp [handleButtonClick, tryBody, hne, hlen2, hok, hb201]
  · intro hnok
    simp [handleButtonClick, tryBody, hne, hlen2, hnok, hb429]

theorem create_non201_non429_behaviour_witness :
    handleButtonClick "cat" (.success ⟨202, .value ⟨[], "starting", "j", some "svc"⟩⟩) [] initialState =
      ⟨{ initialState with error := some "svc", predictionOn := false },
       [.fetchCreate (promptFor "cat")], .returned⟩ ∧
    handleButtonClick "cat" (.success ⟨500, .value ⟨[], "starting", "j", some "svc"⟩⟩) [] initialState =
      ⟨{ initialState with error := none, predictionOn := false },
       [.fetchCreate (promptFor "cat")], .caught (.httpError 500)⟩ :=
  ⟨(create_non201_non429_behaviour "cat" 202 ⟨[], "starting", "j", some "svc"⟩ [] initialState
      (by decide) (by decide) (by decide) (by decide)).1 (by decide),
   (create_non201_non429_behaviour "cat" 500 ⟨[], "starting", "j", some "svc"⟩ [] initialState
      (by decide) (by decide) (by decide) (by decide)).2 (by decide)⟩

theorem jsIndex_isSome (l : List String) (i : Int) :
    (jsIndex l i).isSome = true ↔ 0 ≤ i ∧ i < (l.length : Int) := by
  unfold jsIndex
  split
  · rename_i h0
    rw [Option.isSome_iff_exists]
    constructor
    · rintro ⟨a, ha⟩
      have := (List.getElem?_eq_some.mp ha).1
      omega
    · rintro ⟨_, hlt⟩
      exact ⟨l.get ⟨i.toNat, by omega⟩, List.getElem?_eq_some.mpr ⟨by omega, rfl⟩⟩
  · rename_i h0
    simp
    omega

/-- C10: the four gallery `src` reads are `output[length-1]` down to
`output[length-4]`, unguarded; in the total embedding where indexing
returns an `Option`, all four lookups succeed exactly when `output` has at
least 4 entries — with any shorter (in particular any non-empty shorter)
output list, at least one of the three trailing reads is out of bounds. -/
theorem displayed_srcs_all_defined_iff (output : List String) :
    ((displayedSrcs output).all fun o => o.isSome) = true ↔ 4 ≤ output.length := by
  simp [displayedSrcs, jsIndex_isSome]
  omega

theorem displayed_srcs_all_defined_iff_witness :
    ((displayedSrcs ["a", "b", "c", "d"]).all fun o => o.isSome) = true :=
  (displayed_srcs_all_defined_iff ["a", "b", "c", "d"]).mpr (by decide)
